import Mathlib

/-!
ChatEnhancer: the chat page script `ss_app/static/js/main.js`

A shallow embedding of the script that enhances a server-rendered chat page.
The page is a value of type `Page`; every function of the script becomes a
function on a `World` (the page together with the ordered trace of the
effects performed so far).  Scroll geometry belongs to the layout engine, so
an assignment to `scrollTop` is recorded as an effect and nothing else.

Elements are compared by value, and the children of the message container
are a flat list: the script only ever adds or removes direct children, and
the indicator id is looked up among them, where the script puts it.

The `then` callback is suspended at its `await` while the body is read; what
other events do to the world in the meantime is the `between` argument of
`settle`.
-/

namespace ChatEnhancer

/-! ## Strings -/

/-- ECMAScript `WhiteSpace` and `LineTerminator` code points: what
`String.prototype.trim` strips. -/
def isJsWhiteSpace (c : Char) : Bool :=
  let n := c.toNat
  n == 0x09 || n == 0x0A || n == 0x0B || n == 0x0C || n == 0x0D || n == 0x20 ||
  n == 0xA0 || n == 0x1680 || (0x2000 ≤ n && n ≤ 0x200A) || n == 0x2028 ||
  n == 0x2029 || n == 0x202F || n == 0x205F || n == 0x3000 || n == 0xFEFF

/-- Trimming of a list of characters at both ends. -/
def trimChars (cs : List Char) : List Char :=
  ((cs.dropWhile isJsWhiteSpace).reverse.dropWhile isJsWhiteSpace).reverse

/-- `String.prototype.trim`. -/
def jsTrim (s : String) : String :=
  String.mk (trimChars s.data)

/-- `a || b` on strings: the empty string is the only falsy string. -/
def strOr (a b : String) : String :=
  if a = "" then b else a

/-- Hexadecimal digit, lower case. -/
def hexDigit (n : Nat) : Char :=
  if n < 10 then Char.ofNat (48 + n) else Char.ofNat (87 + n)

/-- `QuoteJSONString` on one character. -/
def jsonEscapeChar (c : Char) : List Char :=
  let n := c.toNat
  if c = '"' then ['\\', '"']
  else if c = '\\' then ['\\', '\\']
  else if n = 0x08 then ['\\', 'b']
  else if n = 0x0C then ['\\', 'f']
  else if n = 0x0A then ['\\', 'n']
  else if n = 0x0D then ['\\', 'r']
  else if n = 0x09 then ['\\', 't']
  else if n < 0x20 then ['\\', 'u', '0', '0', hexDigit (n / 16), hexDigit (n % 16)]
  else [c]

/-- `JSON.stringify` on a string. -/
def jsonQuote (s : String) : String :=
  String.mk (['"'] ++ s.data.flatMap jsonEscapeChar ++ ['"'])

/-- `JSON.stringify({ query: text })`. -/
def stringifyQuery (text : String) : String :=
  "\x7b\"query\":" ++ jsonQuote text ++ "\x7d"

/-! ## Cookie pattern `/csrftoken=([^;]+)/` -/

/-- Literal prefix of the pattern. -/
def csrfKey : List Char := "csrftoken=".data

/-- Remove `pre` from the front of `cs`, when it is there. -/
def dropPrefix? : List Char → List Char → Option (List Char)
  | [], cs => some cs
  | _ :: _, [] => none
  | p :: ps, c :: cs => if p = c then dropPrefix? ps cs else none

/-- Match of the pattern anchored at the head of `cs`: the capture group. -/
def matchHere (cs : List Char) : Option (List Char) :=
  match dropPrefix? csrfKey cs with
  | none => none
  | some rest =>
    let g := rest.takeWhile (fun c => c != ';')
    if g = [] then none else some g

/-- `String.prototype.match` with the pattern: leftmost match, capture group 1. -/
def matchCsrf : List Char → Option (List Char)
  | [] => none
  | c :: cs =>
    match matchHere (c :: cs) with
    | some g => some g
    | none => matchCsrf cs

/-- The header expression `(document.cookie.match(/csrftoken=([^;]+)/) || [])[1] || ""`. -/
def csrfToken (cookie : String) : String :=
  match matchCsrf cookie.data with
  | none => ""
  | some g => strOr (String.mk g) ""

/-! ## Document model -/

/-- What an element holds, by the property it was assigned through. -/
inductive Content where
  | text (s : String)
  | html (s : String)
  deriving DecidableEq, Repr

/-- An element of the message container. -/
structure Node where
  tag : String
  id : String
  className : String
  content : Content
  deriving DecidableEq, Repr

/-- The chat form: `query` is the value of the field named `query`, `none`
when the form has no such field. -/
structure Form where
  query : Option String
  deriving DecidableEq, Repr

/-- The page: `chatbox` holds the children of the element with id `chatbox`
(`none` when there is no such element), `chatForm` the first POST form. -/
structure Page where
  chatbox : Option (List Node)
  chatForm : Option Form
  deriving DecidableEq, Repr

/-- The running environment. -/
structure Env where
  fetch : Bool
  cookie : String
  href : String
  deriving DecidableEq, Repr

/-- A request handed to `fetch`. -/
structure Request where
  url : String
  method : String
  headers : List (String × String)
  body : String
  deriving DecidableEq, Repr

/-- Effects, in the order the script performs them. -/
inductive Effect where
  | preventDefault
  | appendChild (n : Node)
  | remove (n : Node)
  | scrollToBottom
  | setInputValue (v : String)
  | fetch (r : Request)
  deriving DecidableEq, Repr

/-- Page and effect trace. -/
structure World where
  page : Page
  trace : List Effect
  deriving DecidableEq, Repr

/-- A value thrown by the script or by the platform. -/
structure JsError where
  message : String
  deriving DecidableEq, Repr

/-- The `TypeError` of a method call on `null` (`chatbox.appendChild`). -/
def nullTypeError : JsError :=
  ⟨"Cannot read properties of null (reading 'appendChild')"⟩

/-- `const typingId`. -/
def typingId : String := "typing-indicator"

/-- `document.createElement(tag)`. -/
def createElement (tag : String) : Node :=
  { tag := tag, id := "", className := "", content := Content.text "" }

/-- `document.getElementById(id)`, over the children of the container. -/
def getElementById (id : String) (kids : List Node) : Option Node :=
  kids.find? (fun n => n.id == id)

/-- Record one effect. -/
def emit (e : Effect) (w : World) : World :=
  { w with trace := w.trace ++ [e] }

/-- Appending `n` to a container whose children are `kids`. -/
def appendTo (kids : List Node) (n : Node) (w : World) : World :=
  { page := { w.page with chatbox := some (kids ++ [n]) },
    trace := w.trace ++ [Effect.appendChild n] }

/-- `chatbox.appendChild(n)`: `none` stands for the `TypeError` on `null`. -/
def appendChild (n : Node) (w : World) : Option World :=
  match w.page.chatbox with
  | none => none
  | some kids => some (appendTo kids n w)

/-- `el.remove()`. -/
def removeEl (el : Node) (w : World) : World :=
  { page := { w.page with chatbox := w.page.chatbox.map (fun kids => kids.erase el) },
    trace := w.trace ++ [Effect.remove el] }

/-- `input.value = v`. -/
def setInputValue (v : String) (w : World) : World :=
  { page := { w.page with
      chatForm := w.page.chatForm.map (fun f => { f with query := f.query.map (fun _ => v) }) },
    trace := w.trace ++ [Effect.setInputValue v] }

/-! ## The script -/

/-- `function scrollToBottom()`. -/
def scrollToBottom (w : World) : World :=
  match w.page.chatbox with
  | none => w
  | some _ => emit Effect.scrollToBottom w

/-- The element built by `setTyping(true)`. -/
def typingEl : Node :=
  { createElement "div" with
    id := typingId
    className := "msg assistant typing"
    content := Content.html
      "<span class=\"dot\"></span><span class=\"dot\"></span><span class=\"dot\"></span>" }

/-- `function setTyping(on=true)`. -/
def setTyping (isOn : Bool) (w : World) : World :=
  match w.page.chatbox with
  | none => w
  | some kids =>
    let el := getElementById typingId kids
    if isOn then
      match el with
      | none => scrollToBottom (appendTo kids typingEl w)
      | some _ => scrollToBottom w
    else
      match el with
      | some e => removeEl e w
      | none => w

/-- The listener is registered under `if (chatForm && input)`. -/
def registered (p : Page) : Bool :=
  match p.chatForm with
  | none => false
  | some f => f.query.isSome

/-- The `DOMContentLoaded` callback: the initial autoscroll. -/
def onLoad (w : World) : World :=
  scrollToBottom w

/-- Outcome of running the submit listener. -/
structure Run where
  world : World
  defaultPrevented : Bool
  thrown : Option JsError
  deriving DecidableEq, Repr

/-- The user bubble of the submit listener. -/
def userBubble (text : String) : Node :=
  { createElement "div" with className := "msg user", content := Content.text text }

/-- An assistant bubble, as built by the three settle paths. -/
def assistantBubble (text : String) : Node :=
  { createElement "div" with className := "msg assistant", content := Content.text text }

/-- The request of the submit listener. -/
def chatRequest (env : Env) (text : String) : Request :=
  { url := env.href
    method := "POST"
    headers := [("Content-Type", "application/json"),
                ("X-Requested-With", "XMLHttpRequest"),
                ("Accept", "application/json"),
                ("X-CSRFToken", csrfToken env.cookie)]
    body := stringifyQuery text }

/-- The submit listener, up to and including the call of `fetch`;
`value` is `input.value` when the event arrives. -/
def onSubmit (env : Env) (value : String) (w : World) : Run :=
  if env.fetch = false then
    { world := w, defaultPrevented := false, thrown := none }
  else
    let w1 := emit Effect.preventDefault w
    let text := jsTrim (strOr value "")
    if text = "" then
      { world := w1, defaultPrevented := true, thrown := none }
    else
      let userMsg := userBubble text
      match appendChild userMsg w1 with
      | none => { world := w1, defaultPrevented := true, thrown := some nullTypeError }
      | some w2 =>
        let w3 := scrollToBottom w2
        let w4 := setInputValue "" w3
        let w5 := setTyping true w4
        let w6 := emit (Effect.fetch (chatRequest env text)) w5
        { world := w6, defaultPrevented := true, thrown := none }

/-- A submit event on the chat form: the listener runs when it was registered. -/
def submit (env : Env) (w : World) : Run :=
  match w.page.chatForm with
  | none => { world := w, defaultPrevented := false, thrown := none }
  | some f =>
    match f.query with
    | none => { world := w, defaultPrevented := false, thrown := none }
    | some value => onSubmit env value w

/-- A JSON value. -/
inductive Json where
  | null
  | bool (b : Bool)
  | num (n : Int)
  | str (s : String)
  | arr (xs : List Json)
  | obj (kvs : List (String × Json))

/-- A parsed success body of the shape the endpoint answers with: an object
with an optional string `message` and an optional array `semantic`. -/
structure ReplyData where
  message : Option String
  semantic : Option (List Json)

/-- A settled response: `text` and `json` are what `resp.text()` and
`resp.json()` settle with. -/
structure Response where
  ok : Bool
  statusText : String
  text : Except JsError String
  json : Except JsError ReplyData

/-- How the promise returned by `fetch` settles. -/
inductive Outcome where
  | resolved (resp : Response)
  | rejected (err : JsError)

/-- Truthiness of `data.message`. -/
def truthyMessage : Option String → Bool
  | none => false
  | some s => s != ""

/-- Truthiness of `data.semantic?.length`. -/
def truthyLength : Option (List Json) → Bool
  | none => false
  | some xs => xs.length != 0

/-- `data.message || "Response"`. -/
def messageOrResponse : Option String → String
  | none => "Response"
  | some s => strOr s "Response"

/-- The text expression of the success branch:
`data.message || data.semantic?.length ? (data.message || "Response") : "No response."`. -/
def assistantText (data : ReplyData) : String :=
  if truthyMessage data.message || truthyLength data.semantic then
    messageOrResponse data.message
  else
    "No response."

/-- Create an assistant bubble, append it and scroll; a failed append throws. -/
def renderAssistant (text : String) (w : World) : World × Option JsError :=
  match appendChild (assistantBubble text) w with
  | none => (w, some nullTypeError)
  | some w1 => (scrollToBottom w1, none)

/-- The `then` callback up to its `await`: the indicator is hidden, then the
callback is suspended until the body has been read. -/
def thenStart (w : World) : World :=
  setTyping false w

/-- The `then` callback from its `await` on, in the world it resumes in; the
second component is the rejection reason when the callback throws. -/
def thenResume (resp : Response) (w : World) : World × Option JsError :=
  if resp.ok = false then
    match resp.text with
    | Except.error e => (w, some e)
    | Except.ok txt => renderAssistant ("Error: " ++ strOr txt resp.statusText) w
  else
    match resp.json with
    | Except.error e => (w, some e)
    | Except.ok data => renderAssistant (assistantText data) w

/-- The `catch` callback. -/
def catchHandler (err : JsError) (w : World) : World × Option JsError :=
  let w1 := setTyping false w
  renderAssistant ("Network error: " ++ err.message) w1

/-- The chain `fetch(...).then(...).catch(...)` once the request settles.
`between` is what the events handled while the body is being read (further
submits, other requests settling) do to the world; the second component of
the result is a rejection nobody handles. -/
def settle (o : Outcome) (between : World → World) (w : World) : World × Option JsError :=
  match o with
  | Outcome.rejected err => catchHandler err w
  | Outcome.resolved resp =>
    match thenResume resp (between (thenStart w)) with
    | (w1, none) => (w1, none)
    | (w1, some err) => catchHandler err w1

/-! ## Vocabulary of the specification -/

/-- Number of elements carrying the indicator id. -/
def typingCount (kids : List Node) : Nat :=
  kids.countP (fun n => n.id == typingId)

/-- The children that are not the indicator. -/
def withoutTyping (kids : List Node) : List Node :=
  kids.filter (fun n => n.id != typingId)

/-- The effect of hiding the indicator, when one is there. -/
def hideEffects (kids : List Node) : List Effect :=
  match getElementById typingId kids with
  | some el => [Effect.remove el]
  | none => []

/-- The reply text in the words of the specification: `message` when present
and non-empty, else `"Response"` when `semantic` is present with a nonzero
length, else `"No response."`. -/
def specReplyText (data : ReplyData) : String :=
  match data.message with
  | some m =>
    if m ≠ "" then m
    else match data.semantic with
      | some xs => if xs.length ≠ 0 then "Response" else "No response."
      | none => "No response."
  | none =>
    match data.semantic with
    | some xs => if xs.length ≠ 0 then "Response" else "No response."
    | none => "No response."

/-- Value of a hexadecimal digit. -/
def hexValue (c : Char) : Option Nat :=
  let n := c.toNat
  if 48 ≤ n ∧ n ≤ 57 then some (n - 48)
  else if 97 ≤ n ∧ n ≤ 102 then some (n - 87)
  else if 65 ≤ n ∧ n ≤ 70 then some (n - 55)
  else none

/-- The character a two-character JSON escape stands for. -/
def unescapeSimple (e : Char) : Option Char :=
  if e = '"' then some '"'
  else if e = '\\' then some '\\'
  else if e = '/' then some '/'
  else if e = 'b' then some (Char.ofNat 0x08)
  else if e = 'f' then some (Char.ofNat 0x0C)
  else if e = 'n' then some (Char.ofNat 0x0A)
  else if e = 'r' then some (Char.ofNat 0x0D)
  else if e = 't' then some (Char.ofNat 0x09)
  else none

/-- Where the reader of a JSON string literal stands: between characters,
after a backslash, or inside a `u` escape with `digits` digits read. -/
inductive ReadState where
  | plain
  | escaped
  | hex (digits : Nat) (acc : Nat)

/-- Reading of a JSON string literal after its opening quote, by the JSON
grammar: the characters it denotes and what follows the closing quote. -/
def readFrom : ReadState → List Char → Option (List Char × List Char)
  | _, [] => none
  | ReadState.plain, c :: rest =>
    if c = '"' then some ([], rest)
    else if c = '\\' then readFrom ReadState.escaped rest
    else if c.toNat < 0x20 then none
    else (readFrom ReadState.plain rest).map (fun r => (c :: r.1, r.2))
  | ReadState.escaped, e :: rest =>
    if e = 'u' then readFrom (ReadState.hex 0 0) rest
    else
      match unescapeSimple e with
      | none => none
      | some ch => (readFrom ReadState.plain rest).map (fun r => (ch :: r.1, r.2))
  | ReadState.hex digits acc, d :: rest =>
    match hexValue d with
    | none => none
    | some v =>
      if digits = 3 then
        (readFrom ReadState.plain rest).map (fun r => (Char.ofNat (acc * 16 + v) :: r.1, r.2))
      else readFrom (ReadState.hex (digits + 1) (acc * 16 + v)) rest

/-- The request body read back as JSON text: the `query` member of an object
whose only member it is. -/
def readQueryBody (body : String) : Option String :=
  match dropPrefix? "\x7b\"query\":\"".data body.data with
  | none => none
  | some rest =>
    match readFrom ReadState.plain rest with
    | none => none
    | some r => if r.2 = "\x7d".data then some (String.mk r.1) else none

/-- Split at every `;`. -/
def splitSemicolons : List Char → List (List Char)
  | [] => [[]]
  | c :: cs =>
    match splitSemicolons cs with
    | [] => [[c]]
    | seg :: segs => if c = ';' then [] :: seg :: segs else (c :: seg) :: segs

/-- One `name=value` segment of a cookie string, leading blanks dropped. -/
def cookiePair (seg : List Char) : List Char × List Char :=
  let s := seg.dropWhile (fun c => c == ' ')
  (s.takeWhile (fun c => c != '='), (s.dropWhile (fun c => c != '=')).drop 1)

/-- The value of the cookie called `name` in a raw cookie string, in the
words of the specification: a key-value reading of the string. -/
def cookieNamed (name : String) (cookie : String) : Option String :=
  (((splitSemicolons cookie.data).map cookiePair).lookup name.data).map String.mk

/-- The header value the specification describes: the value of the cookie
named `csrftoken`, the empty string when there is none. -/
def specCsrfToken (cookie : String) : String :=
  (cookieNamed "csrftoken" cookie).getD ""

/-! ## Sample pages -/

/-- An environment with `fetch` and a CSRF cookie. -/
def sampleEnv : Env :=
  { fetch := true, cookie := "sessionid=s1; csrftoken=abc123", href := "/chat/" }

/-- The same environment without `fetch`. -/
def legacyEnv : Env :=
  { fetch := false, cookie := "sessionid=s1; csrftoken=abc123", href := "/chat/" }

/-- A page with an empty message container and `value` typed in the field. -/
def samplePage (value : String) : Page :=
  { chatbox := some [], chatForm := some { query := some value } }

/-- A world whose container holds `kids`, with `value` typed in the field. -/
def worldWith (kids : List Node) (value : String) : World :=
  { page := { chatbox := some kids, chatForm := some { query := some value } }, trace := [] }

/-- A page with the form and the field but no message container. -/
def noChatboxWorld (value : String) : World :=
  { page := { chatbox := none, chatForm := some { query := some value } }, trace := [] }

/-- The user types `value` in the field. -/
def typeInto (value : String) (w : World) : World :=
  { w with page := { w.page with
      chatForm := w.page.chatForm.map (fun f => { f with query := f.query.map (fun _ => value) }) } }

/-! ## Helper lemmas -/

theorem getElementById_none_iff (kids : List Node) :
    getElementById typingId kids = none ↔ typingCount kids = 0 := by
  unfold getElementById typingCount
  rw [List.find?_eq_none, List.countP_eq_zero]

theorem getElementById_id {kids : List Node} {el : Node}
    (h : getElementById typingId kids = some el) : el.id = typingId := by
  unfold getElementById at h
  have := List.find?_some h
  simpa using this

theorem getElementById_mem {kids : List Node} {el : Node}
    (h : getElementById typingId kids = some el) : el ∈ kids := by
  unfold getElementById at h
  exact List.mem_of_find?_eq_some h

theorem typingCount_append (xs ys : List Node) :
    typingCount (xs ++ ys) = typingCount xs + typingCount ys := by
  unfold typingCount
  exact List.countP_append _ xs ys

theorem typingCount_typingEl : typingCount [typingEl] = 1 := by decide

theorem typingCount_userBubble (t : String) : typingCount [userBubble t] = 0 := by
  simp [typingCount, userBubble, createElement, typingId]

theorem typingCount_assistantBubble (t : String) : typingCount [assistantBubble t] = 0 := by
  simp [typingCount, assistantBubble, createElement, typingId]

theorem withoutTyping_of_count_zero {kids : List Node} (h : typingCount kids = 0) :
    withoutTyping kids = kids := by
  unfold withoutTyping
  unfold typingCount at h
  rw [List.countP_eq_zero] at h
  rw [List.filter_eq_self]
  intro a ha
  have := h a ha
  simpa using this

theorem erase_eq_withoutTyping {kids : List Node} {el : Node}
    (hone : typingCount kids ≤ 1) (h : getElementById typingId kids = some el) :
    kids.erase el = withoutTyping kids := by
  induction kids with
  | nil => simp [getElementById] at h
  | cons k ks ih =>
    by_cases hk : k.id = typingId
    · have hb : (k.id == typingId) = true := by simpa using hk
      have hel : el = k := by
        unfold getElementById at h
        rw [List.find?_cons, hb] at h
        exact (Option.some.inj h).symm
      subst hel
      have hz : typingCount ks = 0 := by
        simp [typingCount, List.countP_cons, hk] at hone
        simpa [typingCount] using hone
      simp [withoutTyping, hk]
      have := withoutTyping_of_count_zero hz
      simpa [withoutTyping] using this.symm
    · have hb : (k.id == typingId) = false := by simpa using hk
      have h2 : getElementById typingId ks = some el := by
        unfold getElementById at h ⊢
        rw [List.find?_cons, hb] at h
        exact h
      have hne : k ≠ el := by
        intro heq
        apply hk
        rw [heq]
        exact getElementById_id h2
      have hone2 : typingCount ks ≤ 1 := by
        simpa [typingCount, List.countP_cons, hk] using hone
      have := ih hone2 h2
      simp [withoutTyping, hk, List.erase_cons, hne] at this ⊢
      exact this

theorem typingCount_withoutTyping (kids : List Node) :
    typingCount (withoutTyping kids) = 0 := by
  unfold typingCount withoutTyping
  rw [List.countP_eq_zero]
  intro a ha
  have := (List.mem_filter.mp ha).2
  simpa using this

theorem setTyping_no_chatbox (b : Bool) (w : World) (hbox : w.page.chatbox = none) :
    setTyping b w = w := by
  simp [setTyping, hbox]

theorem setTyping_true_absent (w : World) (kids : List Node)
    (hbox : w.page.chatbox = some kids) (habs : getElementById typingId kids = none) :
    setTyping true w =
      { page := { w.page with chatbox := some (kids ++ [typingEl]) },
        trace := w.trace ++ [Effect.appendChild typingEl, Effect.scrollToBottom] } := by
  simp [setTyping, hbox, habs, scrollToBottom, appendTo, emit]

theorem setTyping_true_present (w : World) (kids : List Node) (el : Node)
    (hbox : w.page.chatbox = some kids) (hel : getElementById typingId kids = some el) :
    setTyping true w = { page := w.page, trace := w.trace ++ [Effect.scrollToBottom] } := by
  simp [setTyping, hbox, hel, scrollToBottom, emit]

theorem setTyping_false_absent (w : World) (kids : List Node)
    (hbox : w.page.chatbox = some kids) (habs : getElementById typingId kids = none) :
    setTyping false w = w := by
  simp [setTyping, hbox, habs]

theorem setTyping_false_present (w : World) (kids : List Node) (el : Node)
    (hbox : w.page.chatbox = some kids) (hel : getElementById typingId kids = some el) :
    setTyping false w =
      { page := { w.page with chatbox := some (kids.erase el) },
        trace := w.trace ++ [Effect.remove el] } := by
  simp [setTyping, hbox, hel, removeEl]

/-- Hiding the indicator on a page that holds at most one: the children that
are left, and the effects performed. -/
theorem setTyping_false_unique (w : World) (kids : List Node)
    (hbox : w.page.chatbox = some kids) (hone : typingCount kids ≤ 1) :
    setTyping false w =
      { page := { w.page with chatbox := some (withoutTyping kids) },
        trace := w.trace ++ hideEffects kids } := by
  cases hel : getElementById typingId kids with
  | none =>
    rw [setTyping_false_absent w kids hbox hel]
    have hz := (getElementById_none_iff kids).mp hel
    rw [withoutTyping_of_count_zero hz]
    cases w with
    | mk page trace =>
      cases page with
      | mk chatbox chatForm =>
        simp only at hbox
        simp [hideEffects, hel, hbox]
  | some el =>
    rw [setTyping_false_present w kids el hbox hel, erase_eq_withoutTyping hone hel]
    simp [hideEffects, hel]

theorem getElementById_append_typingEl (kids : List Node) :
    ∃ el, getElementById typingId (kids ++ [typingEl]) = some el := by
  cases h : getElementById typingId (kids ++ [typingEl]) with
  | some el => exact ⟨el, rfl⟩
  | none =>
    have := (getElementById_none_iff _).mp h
    rw [typingCount_append, typingCount_typingEl] at this
    omega

/-! ## The typing indicator -/

/-- C8, as stated, fails: when a second submission arrives while the first
request is in flight, the container holds the indicator followed by the new
user bubble, and `setTyping(true)` leaves that order alone, so the indicator
is not the last child. -/
theorem setTyping_true_not_last :
    (submit sampleEnv (typeInto "again" (submit sampleEnv (worldWith [] "hi")).world)).world.page.chatbox
        = some [userBubble "hi", typingEl, userBubble "again"]
    ∧ (setTyping true (worldWith [userBubble "hi", typingEl, userBubble "again"] "")).page.chatbox
        = some [userBubble "hi", typingEl, userBubble "again"]
    ∧ [userBubble "hi", typingEl, userBubble "again"].getLast? = some (userBubble "again")
    ∧ (userBubble "again").id ≠ typingId := by
  decide

theorem setTyping_true_unique (w : World) (kids : List Node)
    (hbox : w.page.chatbox = some kids) (hone : typingCount kids ≤ 1) :
    ∃ kids', (setTyping true w).page.chatbox = some kids' ∧ typingCount kids' = 1 ∧
      (typingCount kids = 0 → kids' = kids ++ [typingEl] ∧ kids'.getLast? = some typingEl) ∧
      (typingCount kids = 1 → kids' = kids) := by
  cases hel : getElementById typingId kids with
  | none =>
    have hz := (getElementById_none_iff kids).mp hel
    refine ⟨kids ++ [typingEl], ?_, ?_, ?_, ?_⟩
    · rw [setTyping_true_absent w kids hbox hel]
    · rw [typingCount_append, typingCount_typingEl, hz]
    · intro _
      exact ⟨rfl, by simp⟩
    · intro h1
      omega
  | some el =>
    have hnz : typingCount kids ≠ 0 := by
      intro h0
      have := (getElementById_none_iff kids).mpr h0
      rw [hel] at this
      exact Option.noConfusion this
    refine ⟨kids, ?_, ?_, ?_, ?_⟩
    · rw [setTyping_true_present w kids el hbox hel]
      exact hbox
    · omega
    · intro h0
      exact absurd h0 hnz
    · intro _
      rfl

/-- C8, amended: on a page whose container is present and holds at most one
indicator, after `setTyping(true)` exactly one indicator exists; it is the
last child when it had to be created, and when one was already there the
children are left as they were. -/
theorem setTyping_true_exactly_one (w : World) (kids : List Node)
    (hbox : w.page.chatbox = some kids) (hone : typingCount kids ≤ 1) :
    ∃ kids', (setTyping true w).page.chatbox = some kids' ∧ typingCount kids' = 1 ∧
      (typingCount kids = 0 → kids' = kids ++ [typingEl] ∧ kids'.getLast? = some typingEl) ∧
      (typingCount kids = 1 → kids' = kids) :=
  setTyping_true_unique w kids hbox hone

theorem setTyping_true_exactly_one_witness :
    ∃ kids', (setTyping true (worldWith [userBubble "hi"] "")).page.chatbox = some kids' ∧
      typingCount kids' = 1 ∧
      (typingCount [userBubble "hi"] = 0 →
        kids' = [userBubble "hi"] ++ [typingEl] ∧ kids'.getLast? = some typingEl) ∧
      (typingCount [userBubble "hi"] = 1 → kids' = [userBubble "hi"]) :=
  setTyping_true_exactly_one (worldWith [userBubble "hi"] "") [userBubble "hi"] rfl (by decide)

theorem setTyping_true_twice (w : World) :
    setTyping true (setTyping true w) =
      { page := (setTyping true w).page
        trace := (setTyping true w).trace ++
          (if w.page.chatbox.isSome then [Effect.scrollToBottom] else []) } := by
  cases hbox : w.page.chatbox with
  | none =>
    rw [setTyping_no_chatbox true w hbox, setTyping_no_chatbox true w hbox]
    simp
  | some kids =>
    cases hel : getElementById typingId kids with
    | none =>
      obtain ⟨el, h⟩ := getElementById_append_typingEl kids
      rw [setTyping_true_absent w kids hbox hel]
      rw [setTyping_true_present _ (kids ++ [typingEl]) el rfl h]
      simp
    | some el =>
      rw [setTyping_true_present w kids el hbox hel]
      rw [setTyping_true_present _ kids el (by exact hbox) hel]
      simp

theorem setTyping_false_twice (w : World)
    (hone : ∀ kids, w.page.chatbox = some kids → typingCount kids ≤ 1) :
    setTyping false (setTyping false w) = setTyping false w := by
  cases hbox : w.page.chatbox with
  | none =>
    rw [setTyping_no_chatbox false w hbox, setTyping_no_chatbox false w hbox]
  | some kids =>
    rw [setTyping_false_unique w kids hbox (hone kids hbox)]
    apply setTyping_false_absent _ (withoutTyping kids) rfl
    exact (getElementById_none_iff _).mpr (typingCount_withoutTyping kids)

theorem setTyping_false_noop (w : World)
    (hnone : ∀ kids, w.page.chatbox = some kids → typingCount kids = 0) :
    setTyping false w = w := by
  cases hbox : w.page.chatbox with
  | none => exact setTyping_no_chatbox false w hbox
  | some kids =>
    exact setTyping_false_absent w kids hbox ((getElementById_none_iff kids).mpr (hnone kids hbox))

/-- C9, as stated, fails: on a page without the message container two
`setTyping(true)` calls do nothing and leave no indicator at all, and on a
page where two elements carry the indicator id a second `setTyping(false)`
removes the second one, so twice is not the same as once. -/
theorem setTyping_twice_not_every_state :
    setTyping true (setTyping true (noChatboxWorld "")) = noChatboxWorld ""
    ∧ (noChatboxWorld "").page.chatbox = none
    ∧ (setTyping false (worldWith [typingEl, typingEl] "")).page.chatbox = some [typingEl]
    ∧ (setTyping false (setTyping false (worldWith [typingEl, typingEl] ""))).page.chatbox
        = some []
    ∧ (setTyping true (setTyping true (worldWith [typingEl, typingEl] ""))).page.chatbox
        = some [typingEl, typingEl] := by
  decide

/-- C9, amended: on every page `setTyping(true)` applied twice gives the same
page as applied once, the second call only repeating the scroll, and
`setTyping(false)` on a page with no indicator changes nothing, performs no
effect and throws nothing; on a page holding at most one indicator,
`setTyping(false)` applied twice is the same as applied once, and two
`setTyping(true)` calls leave exactly one indicator in the message container
when the page has one. -/
theorem setTyping_idempotent (w : World) :
    (setTyping true (setTyping true w)).page = (setTyping true w).page ∧
    (setTyping true (setTyping true w)).trace
      = (setTyping true w).trace ++
        (if w.page.chatbox.isSome then [Effect.scrollToBottom] else []) ∧
    ((∀ kids, w.page.chatbox = some kids → typingCount kids = 0) → setTyping false w = w) ∧
    ((∀ kids, w.page.chatbox = some kids → typingCount kids ≤ 1) →
      setTyping false (setTyping false w) = setTyping false w ∧
      (∀ b, (setTyping b (setTyping b w)).page = (setTyping b w).page) ∧
      (∀ kids, (setTyping true (setTyping true w)).page.chatbox = some kids →
        typingCount kids = 1)) := by
  have htrue := setTyping_true_twice w
  refine ⟨by rw [htrue], by rw [htrue], setTyping_false_noop w, ?_⟩
  intro hone
  have hfalse := setTyping_false_twice w hone
  refine ⟨hfalse, ?_, ?_⟩
  · intro b
    cases b with
    | false => rw [hfalse]
    | true => rw [htrue]
  · intro kids2 hk2
    rw [htrue] at hk2
    simp only at hk2
    cases hbox : w.page.chatbox with
    | none =>
      rw [setTyping_no_chatbox true w hbox, hbox] at hk2
      exact Option.noConfusion hk2
    | some kids =>
      obtain ⟨kids', hk', hcount, -, -⟩ := setTyping_true_unique w kids hbox (hone kids hbox)
      rw [hk'] at hk2
      cases hk2
      exact hcount

theorem setTyping_idempotent_witness :
    (setTyping true (setTyping true (worldWith [typingEl, userBubble "hi"] ""))).page
        = (setTyping true (worldWith [typingEl, userBubble "hi"] "")).page ∧
    (setTyping false (worldWith [userBubble "hi"] "") = worldWith [userBubble "hi"] "") ∧
    (setTyping false (setTyping false (worldWith [typingEl, userBubble "hi"] ""))
        = setTyping false (worldWith [typingEl, userBubble "hi"] "")) ∧
    (∀ kids, (setTyping true (setTyping true (worldWith [typingEl, userBubble "hi"] ""))).page.chatbox
        = some kids → typingCount kids = 1) :=
  ⟨(setTyping_idempotent (worldWith [typingEl, userBubble "hi"] "")).1,
   (setTyping_idempotent (worldWith [userBubble "hi"] "")).2.2.1
     (by intro kids hk; cases hk; decide),
   ((setTyping_idempotent (worldWith [typingEl, userBubble "hi"] "")).2.2.2
     (by intro kids hk; cases hk; decide)).1,
   ((setTyping_idempotent (worldWith [typingEl, userBubble "hi"] "")).2.2.2
     (by intro kids hk; cases hk; decide)).2.2⟩

/-! ## The submit listener -/

theorem strOr_empty (v : String) : strOr v "" = v := by
  unfold strOr
  by_cases h : v = ""
  · rw [if_pos h]
    exact h.symm
  · rw [if_neg h]

theorem trimChars_blank (cs : List Char) (h : ∀ c ∈ cs, isJsWhiteSpace c = true) :
    trimChars cs = [] := by
  unfold trimChars
  have : cs.dropWhile isJsWhiteSpace = [] := List.dropWhile_eq_nil_iff.mpr h
  rw [this]
  rfl

theorem jsTrim_blank (v : String) (h : ∀ c ∈ v.data, isJsWhiteSpace c = true) :
    jsTrim v = "" := by
  unfold jsTrim
  rw [trimChars_blank v.data h]

theorem getElementById_append_userBubble (kids : List Node) (t : String) :
    getElementById typingId (kids ++ [userBubble t]) = getElementById typingId kids := by
  unfold getElementById
  rw [List.find?_append]
  have : List.find? (fun n => n.id == typingId) [userBubble t] = none := by
    simp [userBubble, createElement, typingId]
  rw [this]
  simp

theorem submit_with_text (env : Env) (w : World) (kids : List Node)
    (f : Form) (v t : String)
    (hfetch : env.fetch = true) (hbox : w.page.chatbox = some kids)
    (hform : w.page.chatForm = some f) (hq : f.query = some v)
    (ht : jsTrim v = t) (hne : t ≠ "") :
    submit env w =
      { world :=
          { page :=
              { chatbox := some (kids ++ [userBubble t] ++
                  (if (getElementById typingId kids).isSome then [] else [typingEl]))
                chatForm := some { query := some "" } }
            trace := w.trace ++
              [Effect.preventDefault, Effect.appendChild (userBubble t),
               Effect.scrollToBottom, Effect.setInputValue ""] ++
              (if (getElementById typingId kids).isSome then []
                else [Effect.appendChild typingEl]) ++
              [Effect.scrollToBottom, Effect.fetch (chatRequest env t)] }
        defaultPrevented := true
        thrown := none }
    ∧ (getElementById typingId (kids ++ [userBubble t] ++
        (if (getElementById typingId kids).isSome then [] else [typingEl]))).isSome = true
    ∧ (userBubble t).className = "msg user"
    ∧ (userBubble t).content = Content.text t
    ∧ typingEl.className = "msg assistant typing"
    ∧ (chatRequest env t).method = "POST"
    ∧ (chatRequest env t).url = env.href
    ∧ (chatRequest env t).body = stringifyQuery t := by
  have hsub : submit env w = onSubmit env v w := by
    simp [submit, hform, hq]
  have htext : jsTrim (strOr v "") = t := by rw [strOr_empty, ht]
  refine ⟨?_, ?_, rfl, rfl, rfl, rfl, rfl, rfl⟩
  · rw [hsub]
    cases hel : getElementById typingId kids with
    | none =>
      have hel2 : getElementById typingId (kids ++ [userBubble t]) = none := by
        rw [getElementById_append_userBubble, hel]
      simp [onSubmit, hfetch, htext, hne, appendChild, appendTo, emit, hbox, scrollToBottom,
        setInputValue, setTyping, hel2, hform, hq]
    | some el =>
      have hel2 : getElementById typingId (kids ++ [userBubble t]) = some el := by
        rw [getElementById_append_userBubble, hel]
      simp [onSubmit, hfetch, htext, hne, appendChild, appendTo, emit, hbox, scrollToBottom,
        setInputValue, setTyping, hel2, hform, hq]
  · cases hel : getElementById typingId kids with
    | none =>
      obtain ⟨el, h⟩ := getElementById_append_typingEl (kids ++ [userBubble t])
      simp only [Option.isSome_none, Bool.false_eq_true, if_false]
      rw [h]
      rfl
    | some el =>
      simp [getElementById_append_userBubble, hel]

theorem hexValue_hexDigit (k : Nat) (hk : k < 16) : hexValue (hexDigit k) = some k := by
  interval_cases k <;> decide

theorem readFrom_simple (e ch : Char) (rest : List Char)
    (he : e ≠ 'u') (h : unescapeSimple e = some ch) :
    readFrom ReadState.plain ('\\' :: e :: rest) =
      (readFrom ReadState.plain rest).map (fun r => (ch :: r.1, r.2)) := by
  simp [readFrom, he, h]

theorem readFrom_escape (c : Char) (tail : List Char) (r : List Char × List Char)
    (h : readFrom ReadState.plain tail = some r) :
    readFrom ReadState.plain (jsonEscapeChar c ++ tail) = some (c :: r.1, r.2) := by
  have hc : Char.ofNat c.toNat = c := Char.ofNat_toNat c
  unfold jsonEscapeChar
  simp only
  split_ifs with h1 h2 h3 h4 h5 h6 h7 h8
  · subst h1
    rw [List.cons_append, List.cons_append, List.nil_append,
      readFrom_simple '"' '"' tail (by decide) (by decide), h]
    rfl
  · subst h2
    rw [List.cons_append, List.cons_append, List.nil_append,
      readFrom_simple '\\' '\\' tail (by decide) (by decide), h]
    rfl
  · rw [h3] at hc
    rw [List.cons_append, List.cons_append, List.nil_append,
      readFrom_simple 'b' (Char.ofNat 8) tail (by decide) (by decide), h, hc]
    rfl
  · rw [h4] at hc
    rw [List.cons_append, List.cons_append, List.nil_append,
      readFrom_simple 'f' (Char.ofNat 12) tail (by decide) (by decide), h, hc]
    rfl
  · rw [h5] at hc
    rw [List.cons_append, List.cons_append, List.nil_append,
      readFrom_simple 'n' (Char.ofNat 10) tail (by decide) (by decide), h, hc]
    rfl
  · rw [h6] at hc
    rw [List.cons_append, List.cons_append, List.nil_append,
      readFrom_simple 'r' (Char.ofNat 13) tail (by decide) (by decide), h, hc]
    rfl
  · rw [h7] at hc
    rw [List.cons_append, List.cons_append, List.nil_append,
      readFrom_simple 't' (Char.ofNat 9) tail (by decide) (by decide), h, hc]
    rfl
  · have hd1 := hexValue_hexDigit (c.toNat / 16) (by omega)
    have hd2 := hexValue_hexDigit (c.toNat % 16) (by omega)
    have h0 : hexValue '0' = some 0 := by decide
    have harith : c.toNat / 16 * 16 + c.toNat % 16 = c.toNat := by omega
    simp [readFrom, h, hd1, hd2, h0, harith, hc]
  · simp [readFrom, h, h1, h2, h8]

theorem readFrom_quoted (cs rest : List Char) :
    readFrom ReadState.plain (cs.flatMap jsonEscapeChar ++ '"' :: rest) = some (cs, rest) := by
  induction cs with
  | nil => simp [readFrom]
  | cons c cs ih =>
    rw [List.flatMap_cons, List.append_assoc, readFrom_escape c _ _ ih]

theorem dropPrefix?_append (pre rest : List Char) : dropPrefix? pre (pre ++ rest) = some rest := by
  induction pre with
  | nil => cases rest <;> rfl
  | cons p ps ih => simp [dropPrefix?, ih]

/-- The body the script serialises reads back, by the JSON grammar, as an
object whose `query` member is the text. -/
theorem readQueryBody_stringifyQuery (t : String) : readQueryBody (stringifyQuery t) = some t := by
  have hdata : (stringifyQuery t).data =
      "\x7b\"query\":\"".data ++ (t.data.flatMap jsonEscapeChar ++ '"' :: "\x7d".data) := by
    simp [stringifyQuery, jsonQuote, String.data_append]
  unfold readQueryBody
  rw [hdata, dropPrefix?_append]
  simp only
  rw [readFrom_quoted]
  simp

/-- C1: with `fetch` available, the container, the form and the field
present, and an input value that trims to a non-empty `t`, the listener
prevents the default, appends the one user bubble with text `t`, scrolls,
clears the field, shows the typing indicator (creating it unless one is
already there) and only then issues its single POST request, whose body is
JSON text that reads back as the object `{ query: t }`. -/
theorem submit_renders_before_request (env : Env) (w : World) (kids : List Node)
    (f : Form) (v t : String)
    (hfetch : env.fetch = true) (hbox : w.page.chatbox = some kids)
    (hform : w.page.chatForm = some f) (hq : f.query = some v)
    (ht : jsTrim v = t) (hne : t ≠ "") :
    (submit env w =
      { world :=
          { page :=
              { chatbox := some (kids ++ [userBubble t] ++
                  (if (getElementById typingId kids).isSome then [] else [typingEl]))
                chatForm := some { query := some "" } }
            trace := w.trace ++
              [Effect.preventDefault, Effect.appendChild (userBubble t),
               Effect.scrollToBottom, Effect.setInputValue ""] ++
              (if (getElementById typingId kids).isSome then []
                else [Effect.appendChild typingEl]) ++
              [Effect.scrollToBottom, Effect.fetch (chatRequest env t)] }
        defaultPrevented := true
        thrown := none }
    ∧ (getElementById typingId (kids ++ [userBubble t] ++
        (if (getElementById typingId kids).isSome then [] else [typingEl]))).isSome = true
    ∧ (userBubble t).className = "msg user"
    ∧ (userBubble t).content = Content.text t
    ∧ typingEl.className = "msg assistant typing"
    ∧ (chatRequest env t).method = "POST"
    ∧ (chatRequest env t).url = env.href
    ∧ (chatRequest env t).body = stringifyQuery t)
    ∧ readQueryBody (chatRequest env t).body = some t
    ∧ (chatRequest env t).headers =
        [("Content-Type", "application/json"), ("X-Requested-With", "XMLHttpRequest"),
         ("Accept", "application/json"), ("X-CSRFToken", csrfToken env.cookie)] :=
  ⟨submit_with_text env w kids f v t hfetch hbox hform hq ht hne,
   readQueryBody_stringifyQuery t, rfl⟩

theorem submit_renders_before_request_witness :
    (submit sampleEnv (worldWith [] " say \"hi\"\n now ") =
      { world :=
          { page := { chatbox := some [userBubble "say \"hi\"\n now", typingEl]
                      chatForm := some { query := some "" } }
            trace :=
              [Effect.preventDefault, Effect.appendChild (userBubble "say \"hi\"\n now"),
               Effect.scrollToBottom, Effect.setInputValue "",
               Effect.appendChild typingEl,
               Effect.scrollToBottom,
               Effect.fetch (chatRequest sampleEnv "say \"hi\"\n now")] }
        defaultPrevented := true
        thrown := none }
    ∧ (getElementById typingId [userBubble "say \"hi\"\n now", typingEl]).isSome = true
    ∧ (userBubble "say \"hi\"\n now").className = "msg user"
    ∧ (userBubble "say \"hi\"\n now").content = Content.text "say \"hi\"\n now"
    ∧ typingEl.className = "msg assistant typing"
    ∧ (chatRequest sampleEnv "say \"hi\"\n now").method = "POST"
    ∧ (chatRequest sampleEnv "say \"hi\"\n now").url = "/chat/"
    ∧ (chatRequest sampleEnv "say \"hi\"\n now").body
        = "\x7b\"query\":\"say \\\"hi\\\"\\n now\"\x7d")
    ∧ readQueryBody "\x7b\"query\":\"say \\\"hi\\\"\\n now\"\x7d" = some "say \"hi\"\n now"
    ∧ (chatRequest sampleEnv "say \"hi\"\n now").headers =
        [("Content-Type", "application/json"), ("X-Requested-With", "XMLHttpRequest"),
         ("Accept", "application/json"), ("X-CSRFToken", "abc123")] :=
  submit_renders_before_request sampleEnv (worldWith [] " say \"hi\"\n now ") []
    { query := some " say \"hi\"\n now " } " say \"hi\"\n now " "say \"hi\"\n now"
    rfl rfl rfl rfl (by decide) (by decide)

/-- C2: when the input value is empty or holds only white space, the
listener leaves the page as it was (container, field and indicator
untouched), throws nothing, and performs no effect other than preventing the
default when `fetch` is available: no bubble, no indicator, no request. -/
theorem submit_blank_is_dropped (env : Env) (w : World) (f : Form) (v : String)
    (hform : w.page.chatForm = some f) (hq : f.query = some v)
    (hblank : ∀ c ∈ v.data, isJsWhiteSpace c = true) :
    (submit env w).world.page = w.page ∧
    (submit env w).thrown = none ∧
    (submit env w).world.trace =
      w.trace ++ (if env.fetch = true then [Effect.preventDefault] else []) := by
  have hsub : submit env w = onSubmit env v w := by
    simp [submit, hform, hq]
  have htext : jsTrim (strOr v "") = "" := by rw [strOr_empty, jsTrim_blank v hblank]
  rw [hsub]
  cases hfetch : env.fetch <;> simp [onSubmit, hfetch, htext, emit]

theorem submit_blank_is_dropped_witness :
    (submit sampleEnv (worldWith [userBubble "hi"] " \t\n ")).world.page
        = (worldWith [userBubble "hi"] " \t\n ").page ∧
    (submit sampleEnv (worldWith [userBubble "hi"] " \t\n ")).thrown = none ∧
    (submit sampleEnv (worldWith [userBubble "hi"] " \t\n ")).world.trace =
      (worldWith [userBubble "hi"] " \t\n ").trace ++
        (if sampleEnv.fetch = true then [Effect.preventDefault] else []) :=
  submit_blank_is_dropped sampleEnv (worldWith [userBubble "hi"] " \t\n ")
    { query := some " \t\n " } " \t\n " rfl rfl (by decide)

theorem submit_no_fetch (env : Env) (w : World) (hfetch : env.fetch = false) :
    submit env w = { world := w, defaultPrevented := false, thrown := none } := by
  cases hform : w.page.chatForm with
  | none => simp [submit, hform]
  | some f =>
    cases hq : f.query with
    | none => simp [submit, hform, hq]
    | some v => simp [submit, hform, hq, onSubmit, hfetch]

/-- C10: without `fetch` the listener returns at once, for every page and
every input value: the default submission is not prevented, the page (the
container, the field, the indicator) is unchanged, no effect is performed,
no request is issued and nothing is thrown. -/
theorem submit_without_fetch (env : Env) (w : World) (hfetch : env.fetch = false) :
    submit env w = { world := w, defaultPrevented := false, thrown := none } :=
  submit_no_fetch env w hfetch

theorem submit_without_fetch_witness :
    submit legacyEnv (worldWith [userBubble "hi"] "hello") =
      { world := worldWith [userBubble "hi"] "hello", defaultPrevented := false, thrown := none } :=
  submit_without_fetch legacyEnv (worldWith [userBubble "hi"] "hello") rfl

/-- Without the form or without the field no listener is registered, and a
submit is left to the browser. -/
theorem submit_unregistered (env : Env) (w : World) (h : registered w.page = false) :
    submit env w = { world := w, defaultPrevented := false, thrown := none } := by
  unfold registered at h
  cases hform : w.page.chatForm with
  | none => simp [submit, hform]
  | some f =>
    rw [hform] at h
    cases hq : f.query with
    | none => simp [submit, hform, hq]
    | some v => simp [hq] at h

/-- C4, evaluated where it fails: on a page that has the form and the field
but no message container the listener is registered all the same; a submit
with text prevents the default and then throws the `TypeError` of
`chatbox.appendChild` on `null`, before any request is issued. -/
theorem submit_without_chatbox_throws :
    registered (noChatboxWorld "hi").page = true ∧
    submit sampleEnv (noChatboxWorld "hi") =
      { world := { page := (noChatboxWorld "hi").page, trace := [Effect.preventDefault] }
        defaultPrevented := true
        thrown := some nullTypeError } := by
  decide

/-! ## Settling of the request -/

theorem assistantBubble_eq (text : String) :
    assistantBubble text =
      { tag := "div", id := "", className := "msg assistant", content := Content.text text } :=
  rfl

theorem renderAssistant_some (text : String) (w : World) (kids : List Node)
    (hbox : w.page.chatbox = some kids) :
    renderAssistant text w =
      ({ page := { w.page with chatbox := some (kids ++ [assistantBubble text]) },
         trace := w.trace ++ [Effect.appendChild (assistantBubble text), Effect.scrollToBottom] },
       none) := by
  simp [renderAssistant, appendChild, appendTo, hbox, scrollToBottom, emit]

theorem assistantText_eq_spec (data : ReplyData) : assistantText data = specReplyText data := by
  cases data with
  | mk message semantic =>
    cases message with
    | none =>
      cases semantic with
      | none => rfl
      | some xs =>
        by_cases hx : xs.length = 0 <;>
          simp [assistantText, specReplyText, truthyMessage, truthyLength, messageOrResponse, hx]
    | some m =>
      by_cases hm : m = ""
      · cases semantic with
        | none =>
          simp [assistantText, specReplyText, truthyMessage, truthyLength, messageOrResponse, hm]
        | some xs =>
          by_cases hx : xs.length = 0 <;>
            simp [assistantText, specReplyText, truthyMessage, truthyLength, messageOrResponse,
              strOr, hm, hx]
      · simp [assistantText, specReplyText, truthyMessage, truthyLength, messageOrResponse,
          strOr, hm]

theorem settle_success (resp : Response) (data : ReplyData) (between : World → World)
    (w : World) (kids' : List Node)
    (hok : resp.ok = true) (hjson : resp.json = Except.ok data)
    (hresume : (between (setTyping false w)).page.chatbox = some kids') :
    settle (Outcome.resolved resp) between w =
      ({ page := { (between (setTyping false w)).page with
            chatbox := some (kids' ++ [assistantBubble (assistantText data)]) },
         trace := (between (setTyping false w)).trace ++
            [Effect.appendChild (assistantBubble (assistantText data)),
             Effect.scrollToBottom] },
       none) := by
  simp only [settle, thenStart, thenResume, hok, hjson, Bool.true_eq_false, if_false]
  rw [renderAssistant_some _ _ kids' hresume]

theorem settle_failure_status (resp : Response) (b : String) (between : World → World)
    (w : World) (kids' : List Node)
    (hok : resp.ok = false) (htext : resp.text = Except.ok b)
    (hresume : (between (setTyping false w)).page.chatbox = some kids') :
    settle (Outcome.resolved resp) between w =
      ({ page := { (between (setTyping false w)).page with
            chatbox := some (kids' ++ [assistantBubble ("Error: " ++ strOr b resp.statusText)]) },
         trace := (between (setTyping false w)).trace ++
            [Effect.appendChild (assistantBubble ("Error: " ++ strOr b resp.statusText)),
             Effect.scrollToBottom] },
       none) := by
  simp only [settle, thenStart, thenResume, hok, htext, if_true]
  rw [renderAssistant_some _ _ kids' hresume]

theorem catchHandler_unique (err : JsError) (w : World) (kids : List Node)
    (hbox : w.page.chatbox = some kids) (hone : typingCount kids ≤ 1) :
    catchHandler err w =
      ({ page := { w.page with
            chatbox := some (withoutTyping kids ++
              [assistantBubble ("Network error: " ++ err.message)]) },
         trace := w.trace ++ hideEffects kids ++
            [Effect.appendChild (assistantBubble ("Network error: " ++ err.message)),
             Effect.scrollToBottom] },
       none) := by
  simp only [catchHandler]
  rw [setTyping_false_unique w kids hbox hone, renderAssistant_some _ _ (withoutTyping kids) rfl]

theorem settle_body_unreadable (resp : Response) (err : JsError) (between : World → World)
    (w : World)
    (hroute : (resp.ok = true ∧ resp.json = Except.error err) ∨
      (resp.ok = false ∧ resp.text = Except.error err)) :
    settle (Outcome.resolved resp) between w = catchHandler err (between (setTyping false w)) := by
  rcases hroute with ⟨hok, hjson⟩ | ⟨hok, htext⟩
  · simp only [settle, thenStart, thenResume, hok, hjson, Bool.true_eq_false, if_false]
  · simp only [settle, thenStart, thenResume, hok, htext, if_true]

/-- C3: for a success response whose body parses to an object with an
optional string `message` and an optional array `semantic`, the callback,
resumed after the body has been read, appends to the container one element
of class `msg assistant` whose text is `message` when present and non-empty,
else `"Response"` when `semantic` is present with nonzero length, else
`"No response."`; in particular for `{"message":"hello"}`,
`{"semantic":[1,2]}`, `{}` and an empty `message`. -/
theorem success_reply_text (w : World) (between : World → World) (kids' : List Node)
    (resp : Response) (data : ReplyData)
    (hok : resp.ok = true) (hjson : resp.json = Except.ok data)
    (hresume : (between (setTyping false w)).page.chatbox = some kids') :
    settle (Outcome.resolved resp) between w =
      ({ page := { (between (setTyping false w)).page with
            chatbox := some (kids' ++
              [{ tag := "div", id := "", className := "msg assistant",
                 content := Content.text (specReplyText data) }]) },
         trace := (between (setTyping false w)).trace ++
            [Effect.appendChild
              { tag := "div", id := "", className := "msg assistant",
                content := Content.text (specReplyText data) },
             Effect.scrollToBottom] },
       none)
    ∧ assistantText data = specReplyText data
    ∧ assistantText { message := some "hello", semantic := none } = "hello"
    ∧ assistantText { message := none, semantic := some [Json.num 1, Json.num 2] } = "Response"
    ∧ assistantText { message := none, semantic := none } = "No response."
    ∧ (∀ sem, assistantText { message := some "", semantic := sem }
        = assistantText { message := none, semantic := sem }) := by
  refine ⟨?_, assistantText_eq_spec data, by decide, by decide, by decide, ?_⟩
  · rw [settle_success resp data between w kids' hok hjson hresume, assistantText_eq_spec,
      assistantBubble_eq]
  · intro sem
    cases sem with
    | none => decide
    | some xs => simp [assistantText, truthyMessage, truthyLength, messageOrResponse, strOr]

theorem success_reply_text_witness :
    settle (Outcome.resolved
        { ok := true, statusText := "OK", text := Except.ok "",
          json := Except.ok { message := some "hello", semantic := none } })
        (fun w => (submit sampleEnv (typeInto "again" w)).world)
        (worldWith [userBubble "hi", typingEl] "") =
      ({ page :=
          { chatbox := some [userBubble "hi", userBubble "again", typingEl,
              { tag := "div", id := "", className := "msg assistant",
                content := Content.text "hello" }]
            chatForm := some { query := some "" } },
         trace :=
          [Effect.remove typingEl, Effect.preventDefault,
           Effect.appendChild (userBubble "again"), Effect.scrollToBottom,
           Effect.setInputValue "", Effect.appendChild typingEl, Effect.scrollToBottom,
           Effect.fetch (chatRequest sampleEnv "again"),
           Effect.appendChild
              { tag := "div", id := "", className := "msg assistant",
                content := Content.text "hello" },
           Effect.scrollToBottom] },
       none)
    ∧ assistantText { message := some "hello", semantic := none }
        = specReplyText { message := some "hello", semantic := none }
    ∧ assistantText { message := some "hello", semantic := none } = "hello"
    ∧ assistantText { message := none, semantic := some [Json.num 1, Json.num 2] } = "Response"
    ∧ assistantText { message := none, semantic := none } = "No response."
    ∧ (∀ sem, assistantText { message := some "", semantic := sem }
        = assistantText { message := none, semantic := sem }) :=
  success_reply_text (worldWith [userBubble "hi", typingEl] "")
    (fun w => (submit sampleEnv (typeInto "again" w)).world)
    [userBubble "hi", userBubble "again", typingEl]
    { ok := true, statusText := "OK", text := Except.ok "",
      json := Except.ok { message := some "hello", semantic := none } }
    { message := some "hello", semantic := none } rfl rfl (by decide)

/-- C5: for a non-2xx response whose body text is `b` and status text `s`,
on a page with its container and at most one indicator, the callback first
removes the indicator and then, resumed after the body has been read, appends
to the container exactly one element of class `msg assistant` whose text is
`"Error: "` followed by `b` when `b` is non-empty and by `s` when it is
empty. -/
theorem error_reply_rendered (w : World) (kids : List Node) (between : World → World)
    (kids' : List Node) (resp : Response) (b : String)
    (hbox : w.page.chatbox = some kids) (hone : typingCount kids ≤ 1)
    (hok : resp.ok = false) (htext : resp.text = Except.ok b)
    (hresume : (between (setTyping false w)).page.chatbox = some kids') :
    setTyping false w =
      { page := { w.page with chatbox := some (withoutTyping kids) },
        trace := w.trace ++ hideEffects kids }
    ∧ typingCount (withoutTyping kids) = 0
    ∧ settle (Outcome.resolved resp) between w =
      ({ page := { (between (setTyping false w)).page with
            chatbox := some (kids' ++
              [{ tag := "div", id := "", className := "msg assistant",
                 content := Content.text
                   ("Error: " ++ (if b = "" then resp.statusText else b)) }]) },
         trace := (between (setTyping false w)).trace ++
            [Effect.appendChild
              { tag := "div", id := "", className := "msg assistant",
                content := Content.text
                  ("Error: " ++ (if b = "" then resp.statusText else b)) },
             Effect.scrollToBottom] },
       none) := by
  refine ⟨setTyping_false_unique w kids hbox hone, typingCount_withoutTyping kids, ?_⟩
  rw [settle_failure_status resp b between w kids' hok htext hresume, assistantBubble_eq]
  rfl

theorem error_reply_rendered_witness :
    setTyping false (worldWith [userBubble "hi", typingEl] "") =
      { page := { chatbox := some [userBubble "hi"], chatForm := some { query := some "" } },
        trace := [Effect.remove typingEl] }
    ∧ typingCount [userBubble "hi"] = 0
    ∧ settle (Outcome.resolved
        { ok := false, statusText := "Bad Request", text := Except.ok "bad query",
          json := Except.error ⟨"Unexpected token"⟩ })
        id (worldWith [userBubble "hi", typingEl] "") =
      ({ page :=
          { chatbox := some [userBubble "hi",
              { tag := "div", id := "", className := "msg assistant",
                content := Content.text "Error: bad query" }]
            chatForm := some { query := some "" } },
         trace := [Effect.remove typingEl,
                   Effect.appendChild
                     { tag := "div", id := "", className := "msg assistant",
                       content := Content.text "Error: bad query" },
                   Effect.scrollToBottom] },
       none) :=
  error_reply_rendered (worldWith [userBubble "hi", typingEl] "") [userBubble "hi", typingEl]
    id [userBubble "hi"]
    { ok := false, statusText := "Bad Request", text := Except.ok "bad query",
      json := Except.error ⟨"Unexpected token"⟩ }
    "bad query" rfl (by decide) rfl rfl (by decide)

/-- C6: every failure that reaches the rejection handler with description
`m` (the request itself rejecting, a success response whose body fails to
parse, a failure response whose body cannot be read) is caught: on the page
the handler runs in (`w'`, with its container and at most one indicator) it
leaves no rejection unhandled, the indicator is gone afterwards, and exactly
one element has been appended, of class `msg assistant` and with text
`"Network error: "` followed by `m`. -/
theorem failure_is_rendered (w w' : World) (between : World → World) (kids' : List Node)
    (o : Outcome) (m : String)
    (hroute : (o = Outcome.rejected ⟨m⟩ ∧ w' = w) ∨
      (∃ resp, o = Outcome.resolved resp ∧
        ((resp.ok = true ∧ resp.json = Except.error ⟨m⟩) ∨
         (resp.ok = false ∧ resp.text = Except.error ⟨m⟩)) ∧
        w' = between (setTyping false w)))
    (hbox : w'.page.chatbox = some kids') (hone : typingCount kids' ≤ 1) :
    settle o between w =
      ({ page := { w'.page with
            chatbox := some (withoutTyping kids' ++
              [{ tag := "div", id := "", className := "msg assistant",
                 content := Content.text ("Network error: " ++ m) }]) },
         trace := w'.trace ++ hideEffects kids' ++
            [Effect.appendChild
              { tag := "div", id := "", className := "msg assistant",
                content := Content.text ("Network error: " ++ m) },
             Effect.scrollToBottom] },
       none)
    ∧ typingCount (withoutTyping kids' ++
        [{ tag := "div", id := "", className := "msg assistant",
           content := Content.text ("Network error: " ++ m) }]) = 0 := by
  constructor
  · rcases hroute with ⟨ho, hw⟩ | ⟨resp, ho, hr, hw⟩
    · subst ho
      subst hw
      simp only [settle]
      rw [catchHandler_unique ⟨m⟩ w' kids' hbox hone, assistantBubble_eq]
    · subst ho
      subst hw
      rw [settle_body_unreadable resp ⟨m⟩ between w hr,
        catchHandler_unique ⟨m⟩ _ kids' hbox hone, assistantBubble_eq]
  · rw [typingCount_append, typingCount_withoutTyping, ← assistantBubble_eq,
      typingCount_assistantBubble]

theorem failure_is_rendered_witness :
    settle (Outcome.rejected ⟨"timeout"⟩) id (worldWith [userBubble "hi", typingEl] "") =
      ({ page :=
          { chatbox := some [userBubble "hi",
              { tag := "div", id := "", className := "msg assistant",
                content := Content.text "Network error: timeout" }]
            chatForm := some { query := some "" } },
         trace := [Effect.remove typingEl,
                   Effect.appendChild
                     { tag := "div", id := "", className := "msg assistant",
                       content := Content.text "Network error: timeout" },
                   Effect.scrollToBottom] },
       none)
    ∧ typingCount [userBubble "hi",
        { tag := "div", id := "", className := "msg assistant",
          content := Content.text "Network error: timeout" }] = 0 :=
  failure_is_rendered (worldWith [userBubble "hi", typingEl] "")
    (worldWith [userBubble "hi", typingEl] "") id [userBubble "hi", typingEl]
    (Outcome.rejected ⟨"timeout"⟩) "timeout" (Or.inl ⟨rfl, rfl⟩) rfl (by decide)

/-! ## The CSRF header -/

/-- C7, evaluated where it fails: a cookie string whose only cookie is named
`mycsrftoken` holds no cookie named `csrftoken`, so the header should be
empty, yet the pattern matches inside the longer name and the header carries
that cookie's value. -/
theorem csrfToken_matches_inside_name :
    csrfToken "mycsrftoken=evil" = "evil" ∧
    cookieNamed "csrftoken" "mycsrftoken=evil" = none ∧
    specCsrfToken "mycsrftoken=evil" = "" ∧
    cookieNamed "mycsrftoken" "mycsrftoken=evil" = some "evil" ∧
    (chatRequest { fetch := true, cookie := "mycsrftoken=evil", href := "/chat/" } "hi").headers
      = [("Content-Type", "application/json"), ("X-Requested-With", "XMLHttpRequest"),
         ("Accept", "application/json"), ("X-CSRFToken", "evil")] := by
  decide

/-! ## The at-most-one-indicator invariant -/

/-- The submit listener keeps the number of indicators at most one. -/
theorem submit_keeps_unique (env : Env) (w : World) (kids kids' : List Node)
    (hbox : w.page.chatbox = some kids) (hone : typingCount kids ≤ 1)
    (hafter : (submit env w).world.page.chatbox = some kids') :
    typingCount kids' ≤ 1 := by
  cases hform : w.page.chatForm with
  | none =>
    simp [submit, hform, hbox] at hafter
    subst hafter
    exact hone
  | some f =>
    cases hq : f.query with
    | none =>
      simp [submit, hform, hq, hbox] at hafter
      subst hafter
      exact hone
    | some v =>
      cases hfetch : env.fetch with
      | false =>
        rw [submit_no_fetch env w hfetch] at hafter
        simp [hbox] at hafter
        subst hafter
        exact hone
      | true =>
        by_cases ht : jsTrim v = ""
        · have hblank : (submit env w).world.page = w.page := by
            simp [submit, hform, hq, onSubmit, hfetch, strOr_empty, ht, emit]
          rw [hblank, hbox] at hafter
          cases hafter
          exact hone
        · have h := (submit_with_text env w kids f v (jsTrim v)
            hfetch hbox hform hq rfl ht).1
          rw [h] at hafter
          simp only [Option.some.injEq] at hafter
          subst hafter
          cases hel : getElementById typingId kids with
          | none =>
            have hz := (getElementById_none_iff kids).mp hel
            simp only [Option.isSome_none, Bool.false_eq_true, if_false]
            rw [typingCount_append, typingCount_append, typingCount_userBubble,
              typingCount_typingEl, hz]
          | some el =>
            simp only [Option.isSome_some, if_true]
            rw [typingCount_append, typingCount_append, typingCount_userBubble]
            simpa [typingCount] using hone

/-- A page on which a request was issued has its message container. -/
theorem fetch_needs_chatbox (env : Env) (w : World) (r : Request)
    (hnew : Effect.fetch r ∈ (submit env w).world.trace) (hold : Effect.fetch r ∉ w.trace) :
    ∃ kids', (submit env w).world.page.chatbox = some kids' := by
  cases hform : w.page.chatForm with
  | none =>
    simp [submit, hform] at hnew
    exact absurd hnew hold
  | some f =>
    cases hq : f.query with
    | none =>
      simp [submit, hform, hq] at hnew
      exact absurd hnew hold
    | some v =>
      cases hfetch : env.fetch with
      | false =>
        rw [submit_no_fetch env w hfetch] at hnew
        exact absurd hnew hold
      | true =>
        by_cases ht : jsTrim v = ""
        · simp [submit, hform, hq, onSubmit, hfetch, strOr_empty, ht, emit] at hnew
          exact absurd hnew hold
        · cases hbox : w.page.chatbox with
          | none =>
            simp [submit, hform, hq, onSubmit, hfetch, strOr_empty, ht, emit, appendChild,
              hbox] at hnew
            exact absurd hnew hold
          | some kids =>
            have h := (submit_with_text env w kids f v (jsTrim v)
              hfetch hbox hform hq rfl ht).1
            rw [h]
            exact ⟨_, rfl⟩

/-- Whatever the outcome, when the page the callbacks run in has its
container and at most one indicator, the settle handling ends with exactly
one assistant bubble appended after children that hold at most one indicator,
and leaves no rejection unhandled. -/
theorem settle_renders_one (o : Outcome) (between : World → World) (w : World)
    (kids kids' : List Node)
    (hbox : w.page.chatbox = some kids) (hone : typingCount kids ≤ 1)
    (hbox' : (between (setTyping false w)).page.chatbox = some kids')
    (hone' : typingCount kids' ≤ 1) :
    ∃ text base, (settle o between w).1.page.chatbox = some (base ++ [assistantBubble text]) ∧
      typingCount base ≤ 1 ∧ (settle o between w).2 = none := by
  cases o with
  | rejected err =>
    refine ⟨"Network error: " ++ err.message, withoutTyping kids, ?_, ?_, ?_⟩
    · simp only [settle]
      rw [catchHandler_unique err w kids hbox hone]
    · rw [typingCount_withoutTyping]
      omega
    · simp only [settle]
      rw [catchHandler_unique err w kids hbox hone]
  | resolved resp =>
    cases hok : resp.ok with
    | false =>
      cases htext : resp.text with
      | error e =>
        have h := settle_body_unreadable resp e between w (Or.inr ⟨hok, htext⟩)
        rw [h, catchHandler_unique e _ kids' hbox' hone']
        exact ⟨"Network error: " ++ e.message, withoutTyping kids', rfl,
          by rw [typingCount_withoutTyping]; omega, rfl⟩
      | ok b =>
        rw [settle_failure_status resp b between w kids' hok htext hbox']
        exact ⟨"Error: " ++ strOr b resp.statusText, kids', rfl, hone', rfl⟩
    | true =>
      cases hjson : resp.json with
      | error e =>
        have h := settle_body_unreadable resp e between w (Or.inl ⟨hok, hjson⟩)
        rw [h, catchHandler_unique e _ kids' hbox' hone']
        exact ⟨"Network error: " ++ e.message, withoutTyping kids', rfl,
          by rw [typingCount_withoutTyping]; omega, rfl⟩
      | ok data =>
        rw [settle_success resp data between w kids' hok hjson hbox']
        exact ⟨assistantText data, kids', rfl, hone', rfl⟩

/-- The settle handling keeps the number of indicators at most one. -/
theorem settle_keeps_unique (o : Outcome) (between : World → World) (w : World)
    (kids kids' after : List Node)
    (hbox : w.page.chatbox = some kids) (hone : typingCount kids ≤ 1)
    (hbox' : (between (setTyping false w)).page.chatbox = some kids')
    (hone' : typingCount kids' ≤ 1)
    (hafter : (settle o between w).1.page.chatbox = some after) :
    typingCount after ≤ 1 := by
  obtain ⟨text, base, h, hbase, -⟩ := settle_renders_one o between w kids kids' hbox hone hbox' hone'
  rw [h] at hafter
  simp only [Option.some.injEq] at hafter
  subst hafter
  rw [typingCount_append, typingCount_assistantBubble]
  omega

end ChatEnhancer
